import Mathlib

/-!
Verification development for the click-latency monitor content script
(`src/content.js`).  The script is a single-threaded, event-driven state
machine: a mousedown arms an early mutation observer, a mouseup arms (after a
zero-delay deferral) the main mutation observer together with a deadline
timer, and the first batch of non-self-inflicted DOM mutations resolves the
measurement cycle and renders a report.

The shallow embedding below translates the script's state variables into a
`MonitorState` record, its helper functions into pure Lean functions over
`ℚ` (timestamps and pixel coordinates are rationals), and its event handlers
into state transformers.  Timer and observer handles are modelled as
`Option Nat`, where the stored `Nat` is the generation (measurement-cycle
counter, a ghost variable incremented on each primary mousedown) at which the
handle was armed; this lets theorems speak about which cycle a pending
callback belongs to.  DOM nodes are identified by `Nat` ids; strings rendered
into the overlay are abstracted into the `DisplayContent` inductive, one
constructor per textual template used by the script.
-/

/-- Result of `calculateFrames`: frame counts at 60Hz and 120Hz, where
`none` models the string `"N/A"`. -/
structure FramesResult where
  f60 : Option ℤ
  f120 : Option ℤ
deriving DecidableEq, Repr

/-- `calculateFrames` from `src/content.js` lines 31–36:
`null` or negative input yields `"N/A"` for both counts, otherwise each
count is `Math.ceil(ms / (1000 / rate))`. -/
def calculateFrames : Option ℚ → FramesResult
  | none => ⟨none, none⟩
  | some ms =>
      if ms < 0 then ⟨none, none⟩
      else ⟨some ⌈ms / (1000 / 60)⌉, some ⌈ms / (1000 / 120)⌉⟩

/-- The three `MutationRecord` types the script's observers are configured
to receive (`childList`, `attributes`, `characterData`). -/
inductive MutationType
  | attributes
  | characterData
  | childList
deriving DecidableEq, Repr

/-- A reported DOM mutation record, with nodes named by `Nat` ids.
`target` is the record's target node, `targetParent` its `parentNode`
(`none` for a detached node), `attributeName` the changed attribute for
attribute records (`none` otherwise). -/
structure MutationRecord where
  type : MutationType
  target : Nat
  targetParent : Option Nat
  attributeName : Option String
deriving DecidableEq, Repr

/-- `isIgnorableSelfMutation` from `src/content.js` lines 45–65: a record is
attributable to the monitor's own overlay iff the overlay exists and the
record is a `style`-attribute change targeting the overlay, a character-data
change whose parent is the overlay, or a child-list change targeting the
overlay. -/
def isIgnorableSelfMutation (mutation : MutationRecord) (displayElem : Option Nat) : Bool :=
  match displayElem with
  | none => false
  | some d =>
      (mutation.type = MutationType.attributes ∧ mutation.target = d ∧
        mutation.attributeName = some "style") ∨
      (mutation.type = MutationType.characterData ∧ mutation.targetParent = some d) ∨
      (mutation.type = MutationType.childList ∧ mutation.target = d)

/-- The node id used for the overlay `div` created by `createDisplayElement`
(`id="frames-monitor-display"`); page nodes may carry any other id, and a
mutation record targeting this id models a mutation of the overlay itself. -/
def overlayNodeId : Nat := 0

/-- Abstraction of the strings the script renders into the overlay, one
constructor per template in `src/content.js`.  Measured durations are kept
as exact rationals; the `toFixed(1)` decimal formatting is presentational
and not modelled. -/
inductive DisplayContent
  | clickToMeasure
  | mousedownWatching
  | mouseupMonitoring
  | clickError
  | timeoutMsg (deadlineMs : ℚ)
  | fullReport (msDown : Option ℚ) (framesDown : FramesResult)
      (msUp : Option ℚ) (framesUp : FramesResult)
  | earlyReport (msDown : Option ℚ) (framesDown : FramesResult)
deriving DecidableEq, Repr

/-- `TIMEOUT_DURATION_MS` from `src/content.js` line 3. -/
def TIMEOUT_DURATION_MS : ℚ := 2000

/-- The content script's state variables (`src/content.js` lines 13–22).
Observer and timer handles are `Option Nat`: `none` is the script's `null`,
and an armed handle stores the generation (`gen`, a ghost measurement-cycle
counter incremented on each primary mousedown) at which it was armed.
`displayContent = none` models a hidden overlay. -/
structure MonitorState where
  mousedownTimestamp : Option ℚ
  mouseupTimestamp : Option ℚ
  mutationObserver : Option Nat
  earlyMutationObserver : Option Nat
  timeoutId : Option Nat
  startMonitoringTimeoutId : Option Nat
  displayElement : Option Nat
  displayContent : Option DisplayContent
  lastMousePosition : ℚ × ℚ
  mutationDetectedBeforeMouseup : Bool
  gen : Nat
deriving DecidableEq, Repr

/-- `resetState` (`src/content.js` lines 142–146): clears the two click
timestamps and the early-detection flag. -/
def resetState (s : MonitorState) : MonitorState :=
  { s with mousedownTimestamp := none, mouseupTimestamp := none,
           mutationDetectedBeforeMouseup := false }

/-- `stopMonitoring` (`src/content.js` lines 152–171): clears the pending
deferred-start timeout, disconnects both observers, and clears the deadline
timeout; each guarded by a null check in the source, which for pure record
updates is equivalent to clearing unconditionally. -/
def stopMonitoring (s : MonitorState) : MonitorState :=
  { s with startMonitoringTimeoutId := none, mutationObserver := none,
           earlyMutationObserver := none, timeoutId := none }

/-- `createDisplayElement` (`src/content.js` lines 71–89): a no-op when the
overlay exists, otherwise creates it hidden. -/
def createDisplayElement (s : MonitorState) : MonitorState :=
  match s.displayElement with
  | some _ => s
  | none => { s with displayElement := some overlayNodeId, displayContent := none }

/-- `updateDisplayText` (`src/content.js` lines 124–135): lazily creates the
overlay, sets its text and forces it visible.  (The position recomputation
is the separate pure function `updateDisplayPosition`; creation failure is
not modelled.) -/
def updateDisplayText (text : DisplayContent) (s : MonitorState) : MonitorState :=
  let s1 := createDisplayElement s
  { s1 with displayContent := some text }

/-- `updateDisplayPosition` (`src/content.js` lines 94–118) as a pure
function of the pointer position, viewport size and overlay size, returning
the computed `(left, top)`: anchor at pointer + (15, 15); per axis, flip to
the other side of the pointer when the anchored box would cross the 10-unit
inset at the far edge; finally clamp to a minimum of 10. -/
def updateDisplayPosition (mouse win el : ℚ × ℚ) : ℚ × ℚ :=
  let offsetX : ℚ := 15
  let offsetY : ℚ := 15
  let finalX := mouse.1 + offsetX
  let finalX := if finalX + el.1 > win.1 - 10 then mouse.1 - el.1 - offsetX else finalX
  let finalX := if finalX < 10 then 10 else finalX
  let finalY := mouse.2 + offsetY
  let finalY := if finalY + el.2 > win.2 - 10 then mouse.2 - el.2 - offsetY else finalY
  let finalY := if finalY < 10 then 10 else finalY
  (finalX, finalY)

/-- The batch test shared by both observer callbacks: `true` iff every
record in the batch is an ignorable self-mutation. -/
def batchIgnorable (batch : List MutationRecord) (s : MonitorState) : Bool :=
  batch.all (fun m => isIgnorableSelfMutation m s.displayElement)

/-- `handleMutation` (`src/content.js` lines 202–240), the main observer
callback, at observation time `now`: if every record is ignorable, return
leaving all state untouched; otherwise stop monitoring and render the
two-line report from the press and release timestamps. -/
def handleMutation (batch : List MutationRecord) (now : ℚ) (s : MonitorState) : MonitorState :=
  if batchIgnorable batch s then s
  else
    let s1 := stopMonitoring s
    let msDown := s.mousedownTimestamp.map (fun t => now - t)
    let msUp := s.mouseupTimestamp.map (fun t => now - t)
    updateDisplayText
      (DisplayContent.fullReport msDown (calculateFrames msDown) msUp (calculateFrames msUp)) s1

/-- `handleEarlyMutation` (`src/content.js` lines 247–280), the pre-release
observer callback: if every record is ignorable, return leaving all state
untouched; otherwise set `mutationDetectedBeforeMouseup`, stop monitoring,
and render the single-line press-to-change report, without resetting the
cycle. -/
def handleEarlyMutation (batch : List MutationRecord) (now : ℚ) (s : MonitorState) :
    MonitorState :=
  if batchIgnorable batch s then s
  else
    let s1 := stopMonitoring { s with mutationDetectedBeforeMouseup := true }
    let msDown := s.mousedownTimestamp.map (fun t => now - t)
    updateDisplayText (DisplayContent.earlyReport msDown (calculateFrames msDown)) s1

/-- `handleTimeout` (`src/content.js` lines 285–291): stop monitoring and
render the timeout message naming the configured deadline. -/
def handleTimeout (s : MonitorState) : MonitorState :=
  updateDisplayText (DisplayContent.timeoutMsg TIMEOUT_DURATION_MS) (stopMonitoring s)

/-- `startMainMonitoring` (`src/content.js` lines 176–196), run when the
zero-delay deferral fires: mark the deferral completed; if either click
timestamp is missing, render the error text and return; otherwise arm the
main observer and the deadline timeout. -/
def startMainMonitoring (s : MonitorState) : MonitorState :=
  let s0 := { s with startMonitoringTimeoutId := none }
  if s0.mouseupTimestamp = none ∨ s0.mousedownTimestamp = none then
    updateDisplayText DisplayContent.clickError s0
  else
    { s0 with mutationObserver := some s0.gen, timeoutId := some s0.gen }

/-- `onMouseDown` (`src/content.js` lines 299–318): ignore non-primary
buttons; otherwise stop any previous monitoring, reset the cycle state,
record the press timestamp, render the watching status, and arm the early
observer.  The ghost generation counter is incremented here, marking the
start of a new measurement cycle. -/
def onMouseDown (button : Nat) (t : ℚ) (s : MonitorState) : MonitorState :=
  if button ≠ 0 then s
  else
    let s1 := resetState (stopMonitoring s)
    let s2 := { s1 with mousedownTimestamp := some t, gen := s1.gen + 1 }
    let s3 := updateDisplayText DisplayContent.mousedownWatching s2
    { s3 with earlyMutationObserver := some s3.gen }

/-- `onMouseUp` (`src/content.js` lines 325–359): ignore non-primary
buttons; with no recorded press, render the neutral prompt and return; with
an early mutation already handled, do nothing; otherwise disconnect the
early observer and, if the release timestamp is not yet recorded, record
it, render the monitoring status, and schedule the deferred start of the
main observer. -/
def onMouseUp (button : Nat) (t : ℚ) (s : MonitorState) : MonitorState :=
  if button ≠ 0 then s
  else if s.mousedownTimestamp = none then
    updateDisplayText DisplayContent.clickToMeasure s
  else if s.mutationDetectedBeforeMouseup then s
  else
    let s1 := { s with earlyMutationObserver := none }
    if s1.mouseupTimestamp = none then
      let s2 := updateDisplayText DisplayContent.mouseupMonitoring
        { s1 with mouseupTimestamp := some t }
      { s2 with startMonitoringTimeoutId := some s2.gen }
    else s1

/-- `onMouseMove` (`src/content.js` lines 365–371): track the pointer
position (the overlay position recomputation is `updateDisplayPosition`). -/
def onMouseMove (x y : ℚ) (s : MonitorState) : MonitorState :=
  { s with lastMousePosition := (x, y) }

/-- `window.cleanupFramesMonitor` (`src/content.js` lines 392–413)
restricted to the probe's state: stop monitoring, reset the cycle state,
and remove the overlay. -/
def cleanupFramesMonitor (s : MonitorState) : MonitorState :=
  let s1 := resetState (stopMonitoring s)
  { s1 with displayElement := none, displayContent := none }

/-- `init` (`src/content.js` lines 378–387) applied to the script's initial
variable values: create the overlay and render the initial prompt. -/
def initState : MonitorState :=
  updateDisplayText DisplayContent.clickToMeasure
    { mousedownTimestamp := none, mouseupTimestamp := none,
      mutationObserver := none, earlyMutationObserver := none,
      timeoutId := none, startMonitoringTimeoutId := none,
      displayElement := none, displayContent := none,
      lastMousePosition := (0, 0), mutationDetectedBeforeMouseup := false,
      gen := 0 }

/-- The events the host environment can dispatch to the probe. -/
inductive Event
  | mouseDown (button : Nat) (t : ℚ)
  | mouseUp (button : Nat) (t : ℚ)
  | mouseMove (x y : ℚ)
  | earlyMutation (batch : List MutationRecord) (t : ℚ)
  | mainMutation (batch : List MutationRecord) (t : ℚ)
  | deferredStart
  | deadlineElapsed
  | cleanup

/-- One event-driven step of the probe.  Pointer events and cleanup can
arrive at any time; an observer callback or timer callback can fire only
while its handle is armed (a disconnected observer delivers no batches and
a cleared timeout never fires). -/
inductive Step : MonitorState → Event → MonitorState → Prop
  | mouseDown (s : MonitorState) (b : Nat) (t : ℚ) :
      Step s (Event.mouseDown b t) (onMouseDown b t s)
  | mouseUp (s : MonitorState) (b : Nat) (t : ℚ) :
      Step s (Event.mouseUp b t) (onMouseUp b t s)
  | mouseMove (s : MonitorState) (x y : ℚ) :
      Step s (Event.mouseMove x y) (onMouseMove x y s)
  | earlyMutation (s : MonitorState) (batch : List MutationRecord) (t : ℚ)
      (h : s.earlyMutationObserver ≠ none) :
      Step s (Event.earlyMutation batch t) (handleEarlyMutation batch t s)
  | mainMutation (s : MonitorState) (batch : List MutationRecord) (t : ℚ)
      (h : s.mutationObserver ≠ none) :
      Step s (Event.mainMutation batch t) (handleMutation batch t s)
  | deferredStart (s : MonitorState)
      (h : s.startMonitoringTimeoutId ≠ none) :
      Step s Event.deferredStart (startMainMonitoring s)
  | deadlineElapsed (s : MonitorState) (h : s.timeoutId ≠ none) :
      Step s Event.deadlineElapsed (handleTimeout s)
  | cleanup (s : MonitorState) :
      Step s Event.cleanup (cleanupFramesMonitor s)

/-- States reachable from a given state by a sequence of steps. -/
inductive ReachableFrom (s : MonitorState) : MonitorState → Prop
  | refl : ReachableFrom s s
  | step {u u' : MonitorState} {e : Event} :
      ReachableFrom s u → Step u e u' → ReachableFrom s u'

/-- States reachable from the script's initial state. -/
def Reachable (s : MonitorState) : Prop := ReachableFrom initState s

/-- `n` is a lower bound on the current cycle generation and on the
generation of every armed observer or timer handle: every pending callback
belongs to a measurement cycle whose generation is at least `n`. -/
def GensBound (n : Nat) (s : MonitorState) : Prop :=
  n ≤ s.gen ∧
  (∀ g, s.mutationObserver = some g → n ≤ g) ∧
  (∀ g, s.earlyMutationObserver = some g → n ≤ g) ∧
  (∀ g, s.timeoutId = some g → n ≤ g) ∧
  (∀ g, s.startMonitoringTimeoutId = some g → n ≤ g)

/-- Invariant for the deferred main-monitoring start: whenever the
zero-delay deferred-start timer is pending, both click timestamps are
recorded. -/
def ClickTimingsPresent (s : MonitorState) : Prop :=
  s.startMonitoringTimeoutId ≠ none →
    s.mousedownTimestamp ≠ none ∧ s.mouseupTimestamp ≠ none

/-- C1: for every non-negative, non-absent duration `ms`, `calculateFrames`
returns exactly `⌈ms / (1000/60)⌉` as the 60Hz count and `⌈ms / (1000/120)⌉`
as the 120Hz count (so `ms = 0` gives 0 and 0 and `ms = 1000` gives 60 and
120), and for every negative or absent duration both outputs are the
not-applicable value. -/
theorem calculateFrames_spec :
    (∀ m : ℚ, 0 ≤ m →
      calculateFrames (some m) = ⟨some ⌈m / (1000 / 60)⌉, some ⌈m / (1000 / 120)⌉⟩) ∧
    (∀ m : ℚ, m < 0 → calculateFrames (some m) = ⟨none, none⟩) ∧
    calculateFrames none = ⟨none, none⟩ ∧
    calculateFrames (some 0) = ⟨some 0, some 0⟩ ∧
    calculateFrames (some 1000) = ⟨some 60, some 120⟩ := by
  refine ⟨fun m hm => ?_, fun m hm => ?_, rfl, ?_, ?_⟩
  · simp [calculateFrames, not_lt.2 hm]
  · simp [calculateFrames, hm]
  · norm_num [calculateFrames]
  · norm_num [calculateFrames]

/-- Witness for `calculateFrames_spec` at the concrete durations 5 and -1. -/
theorem calculateFrames_spec_witness :
    calculateFrames (some 5) = ⟨some ⌈(5 : ℚ) / (1000 / 60)⌉, some ⌈(5 : ℚ) / (1000 / 120)⌉⟩ ∧
    calculateFrames (some (-1)) = ⟨none, none⟩ :=
  ⟨calculateFrames_spec.1 5 (by norm_num), calculateFrames_spec.2.1 (-1) (by norm_num)⟩

/-- C7 counterexample: for the duration 16.6 ms (= 83/5), the 60Hz frame
count produced by `calculateFrames` is not 2: `⌈16.6 / (1000/60)⌉ =
⌈0.996⌉ = 1`. -/
theorem calculateFrames_16_6_f60_ne_two :
    (calculateFrames (some (83 / 5))).f60 ≠ some 2 := by
  have h : calculateFrames (some (83 / 5)) = ⟨some 1, some 2⟩ := by
    norm_num [calculateFrames, Int.ceil_eq_iff]
  simp [h]

/-- C7 amended: for the duration 16.6 ms, the 60Hz frame count produced by
`calculateFrames` is 1 (and the 120Hz count is 2). -/
theorem calculateFrames_16_6_eq :
    calculateFrames (some (83 / 5)) = ⟨some 1, some 2⟩ := by
  norm_num [calculateFrames, Int.ceil_eq_iff]

/-- C5: `stopMonitoring` is total (defined on every state) and idempotent:
one invocation leaves no active main or early observer, no pending deadline
timer and no pending deferred-start timer, and a second invocation changes
nothing. -/
theorem stopMonitoring_total_idempotent (s : MonitorState) :
    (stopMonitoring s).mutationObserver = none ∧
    (stopMonitoring s).earlyMutationObserver = none ∧
    (stopMonitoring s).timeoutId = none ∧
    (stopMonitoring s).startMonitoringTimeoutId = none ∧
    stopMonitoring (stopMonitoring s) = stopMonitoring s := by
  simp [stopMonitoring]

/-- C6 counterexample: an attribute-type mutation record targeting the
overlay whose changed attribute is `id` rather than `style` is NOT
classified as ignorable, and a batch containing only that record completes
the measurement (the armed main observer is stopped). -/
theorem overlay_attribute_not_always_ignorable :
    isIgnorableSelfMutation
      ⟨MutationType.attributes, overlayNodeId, none, some "id"⟩ (some overlayNodeId) = false ∧
    (handleMutation [⟨MutationType.attributes, overlayNodeId, none, some "id"⟩] 100
      { mousedownTimestamp := some 0, mouseupTimestamp := some 50,
        mutationObserver := some 1, earlyMutationObserver := none,
        timeoutId := some 1, startMonitoringTimeoutId := none,
        displayElement := some overlayNodeId,
        displayContent := some DisplayContent.mouseupMonitoring,
        lastMousePosition := (0, 0), mutationDetectedBeforeMouseup := false,
        gen := 1 }).mutationObserver = none := by
  constructor
  · decide
  · simp [handleMutation, batchIgnorable, isIgnorableSelfMutation, stopMonitoring,
      updateDisplayText, createDisplayElement]

/-- C6 amended: every attribute-type record targeting the overlay whose
changed attribute is `style` is classified ignorable, so a batch containing
only such records neither completes the measurement nor disturbs the state
in either observer callback. -/
theorem overlay_style_attribute_ignorable (m : MutationRecord) (d : Nat) (now : ℚ)
    (s : MonitorState) (h1 : m.type = MutationType.attributes) (h2 : m.target = d)
    (h3 : m.attributeName = some "style") (hd : s.displayElement = some d) :
    isIgnorableSelfMutation m s.displayElement = true ∧
    handleMutation [m] now s = s ∧ handleEarlyMutation [m] now s = s := by
  have hig : isIgnorableSelfMutation m s.displayElement = true := by
    simp [isIgnorableSelfMutation, hd, h1, h2, h3]
  refine ⟨hig, ?_, ?_⟩ <;>
    simp [handleMutation, handleEarlyMutation, batchIgnorable, hig]

/-- Witness for `overlay_style_attribute_ignorable` at a concrete record
and state. -/
theorem overlay_style_attribute_ignorable_witness :
    isIgnorableSelfMutation
      ⟨MutationType.attributes, overlayNodeId, none, some "style"⟩
      (MonitorState.displayElement
        { mousedownTimestamp := some 0, mouseupTimestamp := some 50,
          mutationObserver := some 1, earlyMutationObserver := none,
          timeoutId := some 1, startMonitoringTimeoutId := none,
          displayElement := some overlayNodeId,
          displayContent := some DisplayContent.mouseupMonitoring,
          lastMousePosition := (0, 0), mutationDetectedBeforeMouseup := false,
          gen := 1 }) = true :=
  (overlay_style_attribute_ignorable
    ⟨MutationType.attributes, overlayNodeId, none, some "style"⟩ overlayNodeId 100
    { mousedownTimestamp := some 0, mouseupTimestamp := some 50,
      mutationObserver := some 1, earlyMutationObserver := none,
      timeoutId := some 1, startMonitoringTimeoutId := none,
      displayElement := some overlayNodeId,
      displayContent := some DisplayContent.mouseupMonitoring,
      lastMousePosition := (0, 0), mutationDetectedBeforeMouseup := false,
      gen := 1 } rfl rfl rfl rfl).1

/-- C9: a primary-button release with no recorded press renders the neutral
prompt and performs no measurement: both click timestamps, every observer
and timer handle, and the early-detection flag are exactly as before, and
no watcher or timer is armed. -/
theorem onMouseUp_without_press (t : ℚ) (s : MonitorState)
    (h : s.mousedownTimestamp = none) :
    (onMouseUp 0 t s).mousedownTimestamp = none ∧
    (onMouseUp 0 t s).mouseupTimestamp = s.mouseupTimestamp ∧
    (onMouseUp 0 t s).mutationObserver = s.mutationObserver ∧
    (onMouseUp 0 t s).earlyMutationObserver = s.earlyMutationObserver ∧
    (onMouseUp 0 t s).timeoutId = s.timeoutId ∧
    (onMouseUp 0 t s).startMonitoringTimeoutId = s.startMonitoringTimeoutId ∧
    (onMouseUp 0 t s).mutationDetectedBeforeMouseup = s.mutationDetectedBeforeMouseup ∧
    (onMouseUp 0 t s).displayContent = some DisplayContent.clickToMeasure := by
  cases hde : s.displayElement <;>
    simp [onMouseUp, h, updateDisplayText, createDisplayElement, hde]

/-- Witness for `onMouseUp_without_press`: a release into the initial state. -/
theorem onMouseUp_without_press_witness :
    (onMouseUp 0 1 initState).displayContent = some DisplayContent.clickToMeasure :=
  (onMouseUp_without_press 1 initState rfl).2.2.2.2.2.2.2

/-- C2: a batch is wholly ignorable iff every record satisfies the
self-mutation predicate; an ignorable batch leaves both observer callbacks
as exact no-ops (the watcher stays armed, no measurement completes), while
a batch with at least one non-ignorable record makes the main callback stop
both observers, the deadline timer and the deferred-start timer and render
the two-line measurement report. -/
theorem mutation_batch_filtering (batch : List MutationRecord) (now : ℚ)
    (s : MonitorState) :
    (batchIgnorable batch s = true ↔
      ∀ m ∈ batch, isIgnorableSelfMutation m s.displayElement = true) ∧
    (batchIgnorable batch s = true →
      handleMutation batch now s = s ∧ handleEarlyMutation batch now s = s) ∧
    (batchIgnorable batch s = false →
      (handleMutation batch now s).mutationObserver = none ∧
      (handleMutation batch now s).earlyMutationObserver = none ∧
      (handleMutation batch now s).timeoutId = none ∧
      (handleMutation batch now s).startMonitoringTimeoutId = none ∧
      (handleMutation batch now s).displayContent =
        some (DisplayContent.fullReport
          (s.mousedownTimestamp.map (fun tp => now - tp))
          (calculateFrames (s.mousedownTimestamp.map (fun tp => now - tp)))
          (s.mouseupTimestamp.map (fun tu => now - tu))
          (calculateFrames (s.mouseupTimestamp.map (fun tu => now - tu))))) := by
  refine ⟨?_, fun h => ?_, fun h => ?_⟩
  · simp [batchIgnorable, List.all_eq_true]
  · constructor <;> simp [handleMutation, handleEarlyMutation, h]
  · cases hde : s.displayElement <;>
      simp [handleMutation, h, stopMonitoring, updateDisplayText,
        createDisplayElement, hde]

/-- Witness for `mutation_batch_filtering`: an empty batch is ignorable and
leaves the initial state unchanged; a singleton batch containing a
child-list mutation of a non-overlay node is not ignorable. -/
theorem mutation_batch_filtering_witness :
    handleMutation [] 1 initState = initState ∧
    (handleMutation [⟨MutationType.childList, 5, none, none⟩] 1 initState).mutationObserver =
      none :=
  ⟨((mutation_batch_filtering [] 1 initState).2.1 (by decide)).1,
   ((mutation_batch_filtering [⟨MutationType.childList, 5, none, none⟩] 1
      initState).2.2 (by decide)).1⟩

/-- C3: with a press recorded and a relevant (non-ignorable) batch arriving
before the release, the early callback sets `mutationDetectedBeforeMouseup`,
stops every observer and timer, renders the press-to-change-only report,
and leaves both click timestamps in place; a subsequent primary-button
release is then an exact no-op on the resulting state. -/
theorem early_change_then_release_noop (batch : List MutationRecord)
    (tc tr tp : ℚ) (s : MonitorState) (hp : s.mousedownTimestamp = some tp)
    (hrel : batchIgnorable batch s = false) :
    (handleEarlyMutation batch tc s).mutationDetectedBeforeMouseup = true ∧
    (handleEarlyMutation batch tc s).mutationObserver = none ∧
    (handleEarlyMutation batch tc s).earlyMutationObserver = none ∧
    (handleEarlyMutation batch tc s).timeoutId = none ∧
    (handleEarlyMutation batch tc s).startMonitoringTimeoutId = none ∧
    (handleEarlyMutation batch tc s).displayContent =
      some (DisplayContent.earlyReport (some (tc - tp))
        (calculateFrames (some (tc - tp)))) ∧
    (handleEarlyMutation batch tc s).mousedownTimestamp = some tp ∧
    (handleEarlyMutation batch tc s).mouseupTimestamp = s.mouseupTimestamp ∧
    onMouseUp 0 tr (handleEarlyMutation batch tc s) = handleEarlyMutation batch tc s := by
  cases hde : s.displayElement <;>
    simp [handleEarlyMutation, hrel, hp, stopMonitoring, updateDisplayText,
      createDisplayElement, hde, onMouseUp]

/-- Witness for `early_change_then_release_noop`: a press at time 0 into
the initial state, a relevant child-list mutation at time 30, a release at
time 80. -/
theorem early_change_then_release_noop_witness :
    (handleEarlyMutation [⟨MutationType.childList, 5, none, none⟩] 30
      (onMouseDown 0 0 initState)).displayContent =
      some (DisplayContent.earlyReport (some (30 - 0)) (calculateFrames (some (30 - 0)))) :=
  (early_change_then_release_noop [⟨MutationType.childList, 5, none, none⟩] 30 80 0
    (onMouseDown 0 0 initState) (by simp [onMouseDown, initState, resetState,
      stopMonitoring, updateDisplayText, createDisplayElement])
    (by decide)).2.2.2.2.2.1

/-- Helper: the first component of `updateDisplayPosition` written out. -/
theorem updateDisplayPosition_fst (mx my ww wh ew eh : ℚ) :
    (updateDisplayPosition (mx, my) (ww, wh) (ew, eh)).1 =
      if (if mx + 15 + ew > ww - 10 then mx - ew - 15 else mx + 15) < 10 then 10
      else if mx + 15 + ew > ww - 10 then mx - ew - 15 else mx + 15 := rfl

/-- Helper: the second component of `updateDisplayPosition` written out. -/
theorem updateDisplayPosition_snd (mx my ww wh ew eh : ℚ) :
    (updateDisplayPosition (mx, my) (ww, wh) (ew, eh)).2 =
      if (if my + 15 + eh > wh - 10 then my - eh - 15 else my + 15) < 10 then 10
      else if my + 15 + eh > wh - 10 then my - eh - 15 else my + 15 := rfl

/-- C8 counterexample: for the pointer at (0, 0) in a 300 × 300 viewport
with a 290 × 290 overlay, the computed position is clamped to x = 10, and
the overlay's right edge then reaches 300, violating the claimed 10-unit
inset from the right edge of the viewport. -/
theorem overlay_position_inset_violation :
    ¬ ((updateDisplayPosition (0, 0) (300, 300) (290, 290)).1 + 290 ≤ 300 - 10) := by
  rw [updateDisplayPosition_fst]
  norm_num

/-- C8 amended: the computed overlay position is the pointer plus (15, 15),
flipped independently per axis to the opposite side of the cursor when the
anchored box would cross the 10-unit inset at the far edge, then clamped
below at 10; consequently the position always lies at least 10 units from
the left and top viewport edges, and — provided the pointer lies within the
viewport and the overlay is at most the viewport size minus 20 on each
axis — it also lies within the 10-unit inset from the right and bottom
edges. -/
theorem overlay_position_spec (mx my ww wh ew eh : ℚ)
    (hmx0 : 0 ≤ mx) (hmxw : mx ≤ ww) (hew : ew ≤ ww - 20)
    (hmy0 : 0 ≤ my) (hmyh : my ≤ wh) (heh : eh ≤ wh - 20) :
    10 ≤ (updateDisplayPosition (mx, my) (ww, wh) (ew, eh)).1 ∧
    (updateDisplayPosition (mx, my) (ww, wh) (ew, eh)).1 + ew ≤ ww - 10 ∧
    10 ≤ (updateDisplayPosition (mx, my) (ww, wh) (ew, eh)).2 ∧
    (updateDisplayPosition (mx, my) (ww, wh) (ew, eh)).2 + eh ≤ wh - 10 ∧
    (mx + 15 + ew ≤ ww - 10 →
      (updateDisplayPosition (mx, my) (ww, wh) (ew, eh)).1 = mx + 15) ∧
    (ww - 10 < mx + 15 + ew → 10 ≤ mx - ew - 15 →
      (updateDisplayPosition (mx, my) (ww, wh) (ew, eh)).1 = mx - ew - 15) ∧
    (my + 15 + eh ≤ wh - 10 →
      (updateDisplayPosition (mx, my) (ww, wh) (ew, eh)).2 = my + 15) ∧
    (wh - 10 < my + 15 + eh → 10 ≤ my - eh - 15 →
      (updateDisplayPosition (mx, my) (ww, wh) (ew, eh)).2 = my - eh - 15) := by
  rw [updateDisplayPosition_fst, updateDisplayPosition_snd]
  refine ⟨?_, ?_, ?_, ?_, fun h => ?_, fun h1 h2 => ?_, fun h => ?_, fun h1 h2 => ?_⟩ <;>
    split_ifs <;> linarith

/-- Witness for `overlay_position_spec`: a 200-wide overlay with the
pointer at x = 280 in a 300-wide viewport flips to the left of the cursor
(final x = 65, whose right edge 265 stays left of the pointer). -/
theorem overlay_position_spec_witness :
    (updateDisplayPosition (280, 100) (300, 400) (200, 20)).1 = 280 - 200 - 15 ∧
    280 - 200 - 15 + 200 ≤ (280 : ℚ) :=
  ⟨(overlay_position_spec 280 100 300 400 200 20 (by norm_num) (by norm_num)
      (by norm_num) (by norm_num) (by norm_num) (by norm_num)).2.2.2.2.2.1
      (by norm_num) (by norm_num),
   by norm_num⟩

/-- Helper: `updateDisplayText` only touches the overlay fields. -/
theorem updateDisplayText_eq (t : DisplayContent) (s : MonitorState) :
    updateDisplayText t s =
      { s with displayElement := some (s.displayElement.getD overlayNodeId),
               displayContent := some t } := by
  cases hde : s.displayElement <;>
    simp [updateDisplayText, createDisplayElement, hde]


/-- Helper: every step of the probe preserves a generation lower bound —
handlers either clear handles or arm them at the current generation, and
the generation never decreases. -/
theorem gensBound_step {n : Nat} {s s' : MonitorState} {e : Event}
    (hstep : Step s e s') (h : GensBound n s) : GensBound n s' := by
  obtain ⟨hgen, h1, h2, h3, h4⟩ := h
  cases hstep with
  | mouseDown b t =>
      by_cases hb : b ≠ 0
      · simpa [onMouseDown, hb] using ⟨hgen, h1, h2, h3, h4⟩
      · refine ⟨?_, fun g hgv => ?_, fun g hgv => ?_, fun g hgv => ?_, fun g hgv => ?_⟩ <;>
          first
            | ((simp [onMouseDown, hb, resetState, stopMonitoring,
                updateDisplayText_eq]) <;> omega)
            | ((simp [onMouseDown, hb, resetState, stopMonitoring,
                updateDisplayText_eq] at hgv) <;> omega)
  | mouseUp b t =>
      by_cases hb : b ≠ 0
      · simpa [onMouseUp, hb] using ⟨hgen, h1, h2, h3, h4⟩
      by_cases hmd : s.mousedownTimestamp = none
      · refine ⟨?_, fun g hgv => ?_, fun g hgv => ?_, fun g hgv => ?_, fun g hgv => ?_⟩ <;>
          first
            | ((simp [onMouseUp, hb, hmd, updateDisplayText_eq]) <;> omega)
            | (simp [onMouseUp, hb, hmd, updateDisplayText_eq] at hgv
               first | exact h1 g hgv | exact h2 g hgv | exact h3 g hgv | exact h4 g hgv)
      by_cases hflag : s.mutationDetectedBeforeMouseup
      · simpa [onMouseUp, hb, hmd, hflag] using ⟨hgen, h1, h2, h3, h4⟩
      by_cases hmu : s.mouseupTimestamp = none
      · refine ⟨?_, fun g hgv => ?_, fun g hgv => ?_, fun g hgv => ?_, fun g hgv => ?_⟩ <;>
          first
            | ((simp [onMouseUp, hb, hmd, hflag, hmu, updateDisplayText_eq]) <;> omega)
            | ((simp [onMouseUp, hb, hmd, hflag, hmu, updateDisplayText_eq] at hgv) <;> omega)
            | (simp [onMouseUp, hb, hmd, hflag, hmu, updateDisplayText_eq] at hgv
               first | exact h1 g hgv | exact h2 g hgv | exact h3 g hgv | exact h4 g hgv)
      · refine ⟨?_, fun g hgv => ?_, fun g hgv => ?_, fun g hgv => ?_, fun g hgv => ?_⟩ <;>
          first
            | ((simp [onMouseUp, hb, hmd, hflag, hmu, updateDisplayText_eq]) <;> omega)
            | ((simp [onMouseUp, hb, hmd, hflag, hmu, updateDisplayText_eq] at hgv) <;> omega)
            | (simp [onMouseUp, hb, hmd, hflag, hmu, updateDisplayText_eq] at hgv
               first | exact h1 g hgv | exact h2 g hgv | exact h3 g hgv | exact h4 g hgv)
  | earlyMutation batch t hobs =>
      by_cases hig : batchIgnorable batch s
      · simpa [handleEarlyMutation, hig] using ⟨hgen, h1, h2, h3, h4⟩
      · refine ⟨?_, fun g hgv => ?_, fun g hgv => ?_, fun g hgv => ?_, fun g hgv => ?_⟩ <;>
          first
            | ((simp [handleEarlyMutation, hig, stopMonitoring,
                updateDisplayText_eq]) <;> omega)
            | ((simp [handleEarlyMutation, hig, stopMonitoring,
                updateDisplayText_eq] at hgv) <;> omega)
  | mainMutation batch t hobs =>
      by_cases hig : batchIgnorable batch s
      · simpa [handleMutation, hig] using ⟨hgen, h1, h2, h3, h4⟩
      · refine ⟨?_, fun g hgv => ?_, fun g hgv => ?_, fun g hgv => ?_, fun g hgv => ?_⟩ <;>
          first
            | ((simp [handleMutation, hig, stopMonitoring, updateDisplayText_eq]) <;> omega)
            | ((simp [handleMutation, hig, stopMonitoring,
                updateDisplayText_eq] at hgv) <;> omega)
  | deferredStart hpend =>
      by_cases herr : s.mouseupTimestamp = none ∨ s.mousedownTimestamp = none
      · refine ⟨?_, fun g hgv => ?_, fun g hgv => ?_, fun g hgv => ?_, fun g hgv => ?_⟩ <;>
          first
            | ((simp [startMainMonitoring, herr, updateDisplayText_eq]) <;> omega)
            | ((simp [startMainMonitoring, herr, updateDisplayText_eq] at hgv) <;> omega)
            | (simp [startMainMonitoring, herr, updateDisplayText_eq] at hgv
               first | exact h1 g hgv | exact h2 g hgv | exact h3 g hgv | exact h4 g hgv)
      · refine ⟨?_, fun g hgv => ?_, fun g hgv => ?_, fun g hgv => ?_, fun g hgv => ?_⟩ <;>
          first
            | ((simp [startMainMonitoring, herr, updateDisplayText_eq]) <;> omega)
            | ((simp [startMainMonitoring, herr, updateDisplayText_eq] at hgv) <;> omega)
            | (simp [startMainMonitoring, herr, updateDisplayText_eq] at hgv
               first | exact h1 g hgv | exact h2 g hgv | exact h3 g hgv | exact h4 g hgv)
  | deadlineElapsed hpend =>
      refine ⟨?_, fun g hgv => ?_, fun g hgv => ?_, fun g hgv => ?_, fun g hgv => ?_⟩ <;>
        first
          | ((simp [handleTimeout, stopMonitoring, updateDisplayText_eq]) <;> omega)
          | ((simp [handleTimeout, stopMonitoring, updateDisplayText_eq] at hgv) <;> omega)
  | mouseMove x y =>
      simpa [onMouseMove] using ⟨hgen, h1, h2, h3, h4⟩
  | cleanup =>
      refine ⟨?_, fun g hgv => ?_, fun g hgv => ?_, fun g hgv => ?_, fun g hgv => ?_⟩ <;>
        first
          | ((simp [cleanupFramesMonitor, resetState, stopMonitoring]) <;> omega)
          | ((simp [cleanupFramesMonitor, resetState, stopMonitoring] at hgv) <;> omega)

/-- Helper: a generation lower bound persists along any sequence of steps. -/
theorem gensBound_reach {n : Nat} {s u : MonitorState} (h : ReachableFrom s u)
    (hs : GensBound n s) : GensBound n u := by
  induction h with
  | refl => exact hs
  | step hr hst ih => exact gensBound_step hst ih

/-- C4: a primary-button press in any state cancels the previous watch
session entirely — afterwards the main observer, deadline timer and
deferred-start timer are all cleared — resets the cycle (fresh press
timestamp, no release timestamp, flag cleared), arms only the fresh early
observer tagged with the new generation, and in every state reachable after
that press every armed handle belongs to a generation newer than every
cycle that existed before the press, so no callback of an earlier cycle can
ever fire. -/
theorem onMouseDown_cancels_previous_cycle (s u : MonitorState) (t : ℚ)
    (hu : ReachableFrom (onMouseDown 0 t s) u) :
    (onMouseDown 0 t s).mutationObserver = none ∧
    (onMouseDown 0 t s).timeoutId = none ∧
    (onMouseDown 0 t s).startMonitoringTimeoutId = none ∧
    (onMouseDown 0 t s).earlyMutationObserver = some (s.gen + 1) ∧
    (onMouseDown 0 t s).mousedownTimestamp = some t ∧
    (onMouseDown 0 t s).mouseupTimestamp = none ∧
    (onMouseDown 0 t s).mutationDetectedBeforeMouseup = false ∧
    (onMouseDown 0 t s).gen = s.gen + 1 ∧
    GensBound (s.gen + 1) u := by
  have hbase : GensBound (s.gen + 1) (onMouseDown 0 t s) := by
    refine ⟨?_, fun g hgv => ?_, fun g hgv => ?_, fun g hgv => ?_, fun g hgv => ?_⟩ <;>
      first
        | ((simp [onMouseDown, resetState, stopMonitoring, updateDisplayText_eq]) <;> omega)
        | ((simp [onMouseDown, resetState, stopMonitoring,
            updateDisplayText_eq] at hgv) <;> omega)
  refine ⟨?_, ?_, ?_, ?_, ?_, ?_, ?_, ?_, gensBound_reach hu hbase⟩ <;>
    simp [onMouseDown, resetState, stopMonitoring, updateDisplayText_eq]

/-- Witness for `onMouseDown_cancels_previous_cycle`: a press into the
initial state. -/
theorem onMouseDown_cancels_previous_cycle_witness :
    (onMouseDown 0 0 initState).mutationObserver = none ∧
    (onMouseDown 0 0 initState).earlyMutationObserver = some (initState.gen + 1) :=
  ⟨(onMouseDown_cancels_previous_cycle initState (onMouseDown 0 0 initState) 0
      ReachableFrom.refl).1,
   (onMouseDown_cancels_previous_cycle initState (onMouseDown 0 0 initState) 0
      ReachableFrom.refl).2.2.2.1⟩

/-- Helper: every step of the probe preserves `ClickTimingsPresent` — the
deferred-start timer is armed only in `onMouseUp`, right after both click
timestamps are in place, and every operation that clears a timestamp also
clears the timer. -/
theorem clickTimingsPresent_step {s s' : MonitorState} {e : Event}
    (hstep : Step s e s') (h : ClickTimingsPresent s) : ClickTimingsPresent s' := by
  cases hstep with
  | mouseDown b t =>
      by_cases hb : b ≠ 0
      · simpa [onMouseDown, hb] using h
      · intro hp
        simp [onMouseDown, hb, resetState, stopMonitoring, updateDisplayText_eq] at hp
  | mouseUp b t =>
      by_cases hb : b ≠ 0
      · simpa [onMouseUp, hb] using h
      by_cases hmd : s.mousedownTimestamp = none
      · intro hp
        exfalso
        simp [onMouseUp, hb, hmd, updateDisplayText_eq] at hp
        exact (h hp).1 hmd
      by_cases hflag : s.mutationDetectedBeforeMouseup
      · simpa [onMouseUp, hb, hmd, hflag] using h
      by_cases hmu : s.mouseupTimestamp = none
      · intro hp
        simp [onMouseUp, hb, hmd, hflag, hmu, updateDisplayText_eq]
      · intro hp
        simp [onMouseUp, hb, hmd, hflag, hmu, updateDisplayText_eq] at hp ⊢
  | earlyMutation batch t hobs =>
      by_cases hig : batchIgnorable batch s
      · simpa [handleEarlyMutation, hig] using h
      · intro hp
        simp [handleEarlyMutation, hig, stopMonitoring, updateDisplayText_eq] at hp
  | mainMutation batch t hobs =>
      by_cases hig : batchIgnorable batch s
      · simpa [handleMutation, hig] using h
      · intro hp
        simp [handleMutation, hig, stopMonitoring, updateDisplayText_eq] at hp
  | deferredStart hpend =>
      by_cases herr : s.mouseupTimestamp = none ∨ s.mousedownTimestamp = none
      · intro hp
        simp [startMainMonitoring, herr, updateDisplayText_eq] at hp
      · intro hp
        simp [startMainMonitoring, herr, updateDisplayText_eq] at hp
  | deadlineElapsed hpend =>
      intro hp
      simp [handleTimeout, stopMonitoring, updateDisplayText_eq] at hp
  | mouseMove x y =>
      simpa [onMouseMove] using h
  | cleanup =>
      intro hp
      simp [cleanupFramesMonitor, resetState, stopMonitoring] at hp

/-- Helper: every reachable state satisfies `ClickTimingsPresent`. -/
theorem clickTimingsPresent_reachable {s : MonitorState} (hs : Reachable s) :
    ClickTimingsPresent s := by
  induction hs with
  | refl =>
      intro hp
      simp [initState, updateDisplayText_eq] at hp
  | step hr hst ih => exact clickTimingsPresent_step hst ih

/-- C10: in every reachable state with the deferred-start timer pending,
both click timestamps are recorded, so when the deferred start actually
executes it takes the arming branch — the "missing click timings" error
branch of `startMainMonitoring` is unreachable. -/
theorem deferredStart_error_branch_unreachable (s : MonitorState) (hs : Reachable s)
    (hp : s.startMonitoringTimeoutId ≠ none) :
    s.mousedownTimestamp ≠ none ∧ s.mouseupTimestamp ≠ none ∧
    startMainMonitoring s =
      { s with startMonitoringTimeoutId := none,
               mutationObserver := some s.gen, timeoutId := some s.gen } := by
  obtain ⟨hmd, hmu⟩ := clickTimingsPresent_reachable hs hp
  refine ⟨hmd, hmu, ?_⟩
  simp [startMainMonitoring, hmd, hmu]

/-- Witness for `deferredStart_error_branch_unreachable`: the reachable
state after a press at time 0 and a release at time 50. -/
theorem deferredStart_error_branch_unreachable_witness :
    (onMouseUp 0 50 (onMouseDown 0 0 initState)).mousedownTimestamp ≠ none :=
  (deferredStart_error_branch_unreachable (onMouseUp 0 50 (onMouseDown 0 0 initState))
    (ReachableFrom.step (ReachableFrom.step ReachableFrom.refl
      (Step.mouseDown initState 0 0)) (Step.mouseUp (onMouseDown 0 0 initState) 0 50))
    (by decide)).1
